import Mathlib

/-!
Shallow embedding of the Studium-Tracker backend (src/app.py and
src/models.py): a study-tracking REST service over three tables
(modules, learning_sessions, ai_recommendations).

Modelling choices:
* Python float values (hours, durations) become exact rationals; the
  built-in round becomes round-half-to-even on rationals.
* Calendar dates become year/month/day triples; Python and SQL compare
  dates exactly as their proleptic Gregorian ordinals compare
  (datetime.date.toordinal), so date ranges are handled through ordinals,
  and timedelta arithmetic shifts the ordinal.
* Each Flask handler becomes a pure function from the database state plus
  the request data to a status code, an optional response payload and the
  new state.  Every handler body in the source is wrapped in a blanket
  try/except Exception that answers 500, so an exception raised inside a
  handler (including the werkzeug NotFound raised by get_or_404, which is
  a subclass of Exception) surfaces as status 500.
* request.get_json() is modelled as returning an Option: none stands for
  an absent or null JSON body, for which the Flask call yields None.
* The external Gemini call is an oracle parameter of the handler: none
  models a raised exception, some t a response object whose text is t.
-/

namespace StudiumTracker

/-- A calendar date as held by a CPython datetime.date: year, month, day. -/
structure Date where
  year : Int
  month : Nat
  day : Nat
  deriving DecidableEq, Repr

/-- Leap-year test of the Gregorian calendar (datetime / calendar.isleap). -/
def isLeap (y : Int) : Bool :=
  y % 4 == 0 && (y % 100 != 0 || y % 400 == 0)

/-- Number of days of month m (1..12) in year y (datetime _days_in_month). -/
def daysInMonth (y : Int) (m : Nat) : Nat :=
  if m == 2 then (if isLeap y then 29 else 28)
  else if m == 4 || m == 6 || m == 9 || m == 11 then 30
  else 31

/-- Days in the months of year y strictly before month m. -/
def daysBeforeMonth (y : Int) (m : Nat) : Nat :=
  ((List.range' 1 (m - 1)).map (daysInMonth y)).sum

/-- Days before January 1st of year y (datetime _days_before_year). -/
def daysBeforeYear (y : Int) : Int :=
  let p := y - 1
  365 * p + p.fdiv 4 - p.fdiv 100 + p.fdiv 400

/-- datetime.date.toordinal: the day number in the proleptic Gregorian
calendar, ordinal 1 being 0001-01-01.  Valid dates compare exactly as
their ordinals do. -/
def Date.toOrdinal (d : Date) : Int :=
  daysBeforeYear d.year + daysBeforeMonth d.year d.month + d.day

/-- datetime.date.weekday: Monday is 0, ..., Sunday is 6. -/
def Date.weekday (d : Date) : Int :=
  (d.toOrdinal - 1) % 7

/-- Floor of a rational, as an integer. -/
def ratFloor (x : ℚ) : Int :=
  x.num.fdiv (x.den : Int)

/-- Round a rational to the nearest integer with ties to even: the exact
idealisation of the Python built-in round. -/
def roundHalfEven (x : ℚ) : Int :=
  let f := ratFloor x
  let r := x - (f : ℚ)
  if r < 1/2 then f
  else if 1/2 < r then f + 1
  else if f % 2 == 0 then f else f + 1

/-- The Python round(x, n): round to n decimal digits. -/
def pyRound (n : Nat) (x : ℚ) : ℚ :=
  (roundHalfEven (x * (10 : ℚ) ^ n) : ℚ) / (10 : ℚ) ^ n

/-- Row of the modules table (models.py, class Module). -/
structure Module where
  id : Nat
  name : String
  target_hours : ℚ
  exam_date : Option Date
  created_at : Nat
  deriving DecidableEq, Repr

/-- Row of the learning_sessions table (models.py, class LearningSession). -/
structure LearningSession where
  id : Nat
  module_id : Nat
  duration : ℚ
  date : Date
  notes : String
  created_at : Nat
  deriving DecidableEq, Repr

/-- Row of the ai_recommendations table (models.py, class AIRecommendation). -/
structure AIRecommendation where
  id : Nat
  recommendation_text : String
  created_at : Nat
  deriving DecidableEq, Repr

/-- The database state: the three tables in insertion order, the
autoincrement counters for the integer primary keys, and a logical clock
supplying strictly increasing created_at timestamps (datetime.utcnow). -/
structure Store where
  modules : List Module
  sessions : List LearningSession
  recommendations : List AIRecommendation
  nextModuleId : Nat
  nextSessionId : Nat
  nextRecId : Nat
  clock : Nat
  deriving DecidableEq, Repr

/-- Module.query.get(mid): primary-key lookup. -/
def findModule (s : Store) (mid : Nat) : Option Module :=
  s.modules.find? (fun m => m.id == mid)

/-- The Module.sessions relationship (models.py line 22): every session
whose module_id is this module id. -/
def Module.sessions (s : Store) (m : Module) : List LearningSession :=
  s.sessions.filter (fun x => x.module_id == m.id)

/-- models.py Module.get_actual_hours: round(sum of session durations, 2). -/
def Module.get_actual_hours (s : Store) (m : Module) : ℚ :=
  pyRound 2 (((Module.sessions s m).map (fun x => x.duration)).sum)

/-- models.py Module.get_progress_percentage: 0 when target_hours is 0,
otherwise round(actual / target * 100, 1). -/
def Module.get_progress_percentage (s : Store) (m : Module) : ℚ :=
  if m.target_hours = 0 then 0
  else pyRound 1 (Module.get_actual_hours s m / m.target_hours * 100)

/-- Serialized form of a Module (models.py Module.to_dict without the
optional sessions list). -/
structure ModuleDict where
  id : Nat
  name : String
  target_hours : ℚ
  exam_date : Option Date
  created_at : Nat
  actual_hours : ℚ
  progress_percentage : ℚ
  deriving DecidableEq, Repr

/-- models.py Module.to_dict. -/
def Module.to_dict (s : Store) (m : Module) : ModuleDict :=
  { id := m.id, name := m.name, target_hours := m.target_hours,
    exam_date := m.exam_date, created_at := m.created_at,
    actual_hours := Module.get_actual_hours s m,
    progress_percentage := Module.get_progress_percentage s m }

/-- Serialized form of a LearningSession (models.py to_dict). -/
structure SessionDict where
  id : Nat
  module_id : Nat
  module_name : Option String
  duration : ℚ
  date : Date
  notes : String
  created_at : Nat
  deriving DecidableEq, Repr

/-- models.py LearningSession.to_dict; module_name resolves the parent
module through the back-reference, none when it is absent. -/
def LearningSession.to_dict (s : Store) (x : LearningSession) : SessionDict :=
  { id := x.id, module_id := x.module_id,
    module_name := (findModule s x.module_id).map (fun m => m.name),
    duration := x.duration, date := x.date, notes := x.notes,
    created_at := x.created_at }

/-- Serialized form of an AIRecommendation (models.py to_dict). -/
structure RecommendationDict where
  id : Nat
  recommendation_text : String
  created_at : Nat
  deriving DecidableEq, Repr

/-- models.py AIRecommendation.to_dict. -/
def AIRecommendation.to_dict (r : AIRecommendation) : RecommendationDict :=
  { id := r.id, recommendation_text := r.recommendation_text,
    created_at := r.created_at }

/-- Split a character list on the dash separator. -/
def splitOnDash (cs : List Char) : List (List Char) :=
  match cs with
  | [] => [[]]
  | c :: rest =>
    let r := splitOnDash rest
    if c = '-' then [] :: r
    else
      match r with
      | [] => [[c]]
      | h :: t => (c :: h) :: t

/-- Numeric value of a digit group. -/
def digitsVal (cs : List Char) : Nat :=
  cs.foldl (fun a c => 10 * a + (c.toNat - 48)) 0

/-- The strptime %Y directive: exactly four digits (the CPython _strptime
regex for %Y). -/
def yearNat? (cs : List Char) : Option Nat :=
  if cs.length = 4 ∧ cs.all (fun c => c.isDigit) then some (digitsVal cs)
  else none

/-- The strptime %m directive: one or two digits with value 1..12 (the
CPython _strptime regex for %m has no space-padded alternative). -/
def monthNat? (cs : List Char) : Option Nat :=
  if (cs.length = 1 ∨ cs.length = 2) ∧ cs.all (fun c => c.isDigit) ∧
      1 ≤ digitsVal cs ∧ digitsVal cs ≤ 12 then some (digitsVal cs)
  else none

/-- The strptime %d directive: one or two digits with value 1..31, or a
space followed by a nonzero digit (the space-padded-day alternative of
the CPython _strptime regex for %d). -/
def dayNat? (cs : List Char) : Option Nat :=
  match cs with
  | [' ', c] => if c.isDigit ∧ c ≠ '0' then some (c.toNat - 48) else none
  | _ =>
    if (cs.length = 1 ∨ cs.length = 2) ∧ cs.all (fun c => c.isDigit) ∧
        1 ≤ digitsVal cs ∧ digitsVal cs ≤ 31 then some (digitsVal cs)
    else none

/-- app.py validate_date: parse a YYYY-MM-DD string through
datetime.strptime and return the date, or None on failure.  The three
groups between the literal dashes must match the strptime directives
%Y (exactly four digits), %m (one or two digits, 1..12) and %d (one or
two digits 1..31, or a space-padded single nonzero digit), and the
datetime.date constructor then requires a year of at least 1 and a day
that exists in the month (month lengths, leap years). -/
def validate_date (date_string : String) : Option Date :=
  match splitOnDash date_string.data with
  | [ys, ms, ds] =>
    match yearNat? ys, monthNat? ms, dayNat? ds with
    | some y, some m, some d =>
      if 1 ≤ y ∧ 1 ≤ d ∧ d ≤ daysInMonth (y : Int) m
      then some { year := (y : Int), month := m, day := d }
      else none
    | _, _, _ => none
  | _ => none

/-- app.py get_sessions_by_date_range: every session whose date lies
between the two bounds, both inclusive.  SQL compares the date column as
the ordinals compare, so the bounds are passed as ordinals. -/
def get_sessions_by_date_range (s : Store) (start_ord end_ord : Int) :
    List LearningSession :=
  s.sessions.filter
    (fun x => decide (start_ord ≤ x.date.toOrdinal ∧ x.date.toOrdinal ≤ end_ord))

/-- app.py calculate_total_hours: round(sum of the session durations, 2). -/
def calculate_total_hours (sessions : List LearningSession) : ℚ :=
  pyRound 2 ((sessions.map (fun x => x.duration)).sum)

/-- An HTTP response as the claims observe it: status code, optional
payload and the database state after the request. -/
structure Resp (β : Type) where
  status : Nat
  body : Option β
  store : Store
  deriving DecidableEq, Repr

/-- JSON body of POST /api/modules; each field may be absent. -/
structure ModuleBody where
  name : Option String
  target_hours : Option ℚ
  exam_date : Option String
  deriving DecidableEq, Repr

/-- The success path of create_module: insert the row with the next id and
the current clock, then serialize it against the committed state. -/
def createModuleCommit (s : Store) (name : String) (target_hours : ℚ)
    (exam_date : Option Date) : Resp ModuleDict :=
  let m : Module :=
    { id := s.nextModuleId, name := name, target_hours := target_hours,
      exam_date := exam_date, created_at := s.clock }
  let s2 : Store :=
    { s with modules := s.modules ++ [m],
             nextModuleId := s.nextModuleId + 1, clock := s.clock + 1 }
  { status := 201, body := some (Module.to_dict s2 m), store := s2 }

/-- app.py create_module (POST /api/modules).  data = none models an
absent or null JSON body; the handler tests not data first, so that case
is a 400 together with the missing-field cases.  An exam_date entry whose
value is falsy (empty string, and likewise null) is skipped rather than
validated; only a truthy value that fails to parse is rejected. -/
def create_module (s : Store) (data : Option ModuleBody) : Resp ModuleDict :=
  match data with
  | none => { status := 400, body := none, store := s }
  | some d =>
    match d.name, d.target_hours with
    | some name, some target_hours =>
      if target_hours < 0 then { status := 400, body := none, store := s }
      else
        match d.exam_date with
        | some e =>
          if e = "" then createModuleCommit s name target_hours none
          else
            match validate_date e with
            | none => { status := 400, body := none, store := s }
            | some ed => createModuleCommit s name target_hours (some ed)
        | none => createModuleCommit s name target_hours none
    | _, _ => { status := 400, body := none, store := s }

/-- JSON body of POST /api/sessions; each field may be absent. -/
structure SessionBody where
  module_id : Option Nat
  duration : Option ℚ
  date : Option String
  notes : Option String
  deriving DecidableEq, Repr

/-- app.py create_session (POST /api/sessions).  With data = none the
membership test on the body raises TypeError, which the blanket except
turns into a 500.  Checks run in source order: required fields, then
duration, then module existence, then the date format. -/
def create_session (s : Store) (data : Option SessionBody) : Resp SessionDict :=
  match data with
  | none => { status := 500, body := none, store := s }
  | some d =>
    match d.module_id, d.duration, d.date with
    | some module_id, some duration, some date_str =>
      if duration ≤ 0 then { status := 400, body := none, store := s }
      else
        match findModule s module_id with
        | none => { status := 404, body := none, store := s }
        | some _ =>
          match validate_date date_str with
          | none => { status := 400, body := none, store := s }
          | some session_date =>
            let x : LearningSession :=
              { id := s.nextSessionId, module_id := module_id,
                duration := duration, date := session_date,
                notes := d.notes.getD "", created_at := s.clock }
            let s2 : Store :=
              { s with sessions := s.sessions ++ [x],
                       nextSessionId := s.nextSessionId + 1,
                       clock := s.clock + 1 }
            { status := 201, body := some (LearningSession.to_dict s2 x),
              store := s2 }
    | _, _, _ => { status := 400, body := none, store := s }

/-- app.py delete_module (DELETE /api/modules/id).  get_or_404 raises the
werkzeug NotFound, a subclass of Exception, which the blanket except of
this very handler catches, so a missing id answers 500 (with the
exception text), not 404.  Deleting an existing module removes it and,
by the cascade relationship of models.py line 22, every session whose
module_id references it. -/
def delete_module (s : Store) (module_id : Nat) : Resp String :=
  match findModule s module_id with
  | none => { status := 500, body := none, store := s }
  | some m =>
    { status := 200,
      body := some ("Modul " ++ m.name ++ " erfolgreich geloescht"),
      store :=
        { s with modules := s.modules.filter (fun q => q.id != module_id),
                 sessions := s.sessions.filter (fun x => x.module_id != module_id) } }

/-- app.py delete_session (DELETE /api/sessions/id): the same blanket
except converts the NotFound of get_or_404 into a 500. -/
def delete_session (s : Store) (session_id : Nat) : Resp String :=
  match s.sessions.find? (fun x => x.id == session_id) with
  | none => { status := 500, body := none, store := s }
  | some _ =>
    { status := 200, body := some "Session erfolgreich geloescht",
      store := { s with sessions := s.sessions.filter (fun x => x.id != session_id) } }

/-- The ORDER BY date DESC comparison of get_sessions, as a Bool. -/
def dateDescLe (a b : LearningSession) : Bool :=
  decide (b.date.toOrdinal ≤ a.date.toOrdinal)

/-- app.py get_sessions (GET /api/sessions).  limit is none when the query
parameter is absent or not an integer; the handler tests if limit: so a
limit of 0 is falsy and ignored, and SQLite treats a negative LIMIT as
unlimited.  Always answers 200. -/
def get_sessions (s : Store) (limit : Option Int) : Nat × List SessionDict :=
  let sorted := s.sessions.mergeSort dateDescLe
  let rows :=
    match limit with
    | some l => if 0 < l then sorted.take l.toNat else sorted
    | none => sorted
  (200, rows.map (LearningSession.to_dict s))

/-- The process configuration relevant to POST /api/recommend. -/
structure Config where
  gemini_api_key : String
  deriving DecidableEq, Repr

/-- One per-module line of the Gemini prompt (app.py lines 295-301): the
module name, its target hours, the hours already studied, and the hours
still open, remaining_hours = max(0, target_hours - actual_hours). -/
structure PromptLine where
  name : String
  target_hours : ℚ
  actual_hours : ℚ
  remaining_hours : ℚ
  deriving DecidableEq, Repr

/-- The per-module lines of the prompt, accumulated in the loop order of
the source (for module in modules: prompt += line). -/
def promptLines (s : Store) : List PromptLine :=
  s.modules.foldl
    (fun acc m =>
      let actual_hours := Module.get_actual_hours s m
      let remaining_hours := max 0 (m.target_hours - actual_hours)
      acc ++ [{ name := m.name, target_hours := m.target_hours,
                actual_hours := actual_hours,
                remaining_hours := remaining_hours }]) []

/-- Outcome of POST /api/recommend: status, new state, and whether the
external Gemini call was attempted. -/
structure RecommendResult where
  status : Nat
  store : Store
  external_called : Bool
  deriving DecidableEq, Repr

/-- app.py create_recommendation (POST /api/recommend).  First the
configuration gate: an unset (empty) key or the placeholder answers 503
before anything else.  Then the no-modules gate answers 400.  Only then is
the prompt built and the external call made; api_response = none models an
exception from the call (caught, 500), empty text is treated as a failure
(500), and otherwise the text is persisted as a new row, 201. -/
def create_recommendation (cfg : Config) (s : Store)
    (api_response : Option String) : RecommendResult :=
  if cfg.gemini_api_key = "" ∨ cfg.gemini_api_key = "your-api-key-here" then
    { status := 503, store := s, external_called := false }
  else if s.modules.isEmpty then
    { status := 400, store := s, external_called := false }
  else
    match api_response with
    | none => { status := 500, store := s, external_called := true }
    | some t =>
      if t = "" then { status := 500, store := s, external_called := true }
      else
        let r : AIRecommendation :=
          { id := s.nextRecId, recommendation_text := t, created_at := s.clock }
        { status := 201,
          store := { s with recommendations := s.recommendations ++ [r],
                            nextRecId := s.nextRecId + 1, clock := s.clock + 1 },
          external_called := true }

/-- One step of scanning the ai_recommendations table for the first row in
descending created_at order: keep the row with the larger created_at,
preferring the earlier-scanned one on ties. -/
def maxByCreatedAt (acc : Option AIRecommendation) (r : AIRecommendation) :
    Option AIRecommendation :=
  match acc with
  | none => some r
  | some a => if a.created_at < r.created_at then some r else some a

/-- AIRecommendation.query.order_by(created_at.desc()).first(): the first
row in descending created_at order, that is a row with maximal
created_at (the earliest-inserted one on ties). -/
def lastRecommendation (s : Store) : Option AIRecommendation :=
  s.recommendations.foldl maxByCreatedAt none

/-- The statistics block of GET /api/dashboard. -/
structure DashboardStats where
  hours_today : ℚ
  hours_week : ℚ
  hours_month : ℚ
  sessions_today : Nat
  sessions_week : Nat
  total_modules : Nat
  deriving DecidableEq, Repr

/-- The composite payload of GET /api/dashboard. -/
structure DashboardData where
  statistics : DashboardStats
  modules : List ModuleDict
  last_recommendation : Option RecommendationDict
  deriving DecidableEq, Repr

/-- today.replace(day=1). -/
def monthStart (d : Date) : Date :=
  { d with day := 1 }

/-- app.py get_dashboard (GET /api/dashboard), with the current date as a
parameter.  week_start = today - timedelta(days=today.weekday()) shifts
the ordinal back by the weekday; month_start = today.replace(day=1).
Always answers 200. -/
def get_dashboard (s : Store) (today : Date) : DashboardData :=
  let today_ord := today.toOrdinal
  let week_start := today_ord - today.weekday
  let month_start := (monthStart today).toOrdinal
  let today_sessions := get_sessions_by_date_range s today_ord today_ord
  let week_sessions := get_sessions_by_date_range s week_start today_ord
  let month_sessions := get_sessions_by_date_range s month_start today_ord
  { statistics :=
      { hours_today := calculate_total_hours today_sessions,
        hours_week := calculate_total_hours week_sessions,
        hours_month := calculate_total_hours month_sessions,
        sessions_today := today_sessions.length,
        sessions_week := week_sessions.length,
        total_modules := s.modules.length },
    modules := s.modules.map (Module.to_dict s),
    last_recommendation := (lastRecommendation s).map AIRecommendation.to_dict }

/-- The empty database, as created by db.create_all on a fresh file. -/
def emptyStore : Store :=
  { modules := [], sessions := [], recommendations := [],
    nextModuleId := 1, nextSessionId := 1, nextRecId := 1, clock := 0 }

/-! ### Specification-side definitions

These follow the words of the specification and are compared against the
definitions taken from the source. -/

/-- Specification side (claim C2): the ordinal of the Monday of the week
of d. -/
def mondayOrd (d : Date) : Int :=
  d.toOrdinal - d.weekday

/-- Specification side (claim C2): the first day of the month of d. -/
def firstOfMonth (d : Date) : Date :=
  { year := d.year, month := d.month, day := 1 }

/-- Specification side (claim C5 as amended): a module-creation request is
rejected exactly when the body is absent, name or target_hours is missing,
target_hours is negative, or exam_date is present with a non-empty value
that does not parse in the fixed YYYY-MM-DD format. -/
@[reducible] def moduleCreateRejected (data : Option ModuleBody) : Prop :=
  match data with
  | none => True
  | some d =>
    match d.name, d.target_hours with
    | some _, some t =>
      t < 0 ∨
        (match d.exam_date with
         | some e => e ≠ "" ∧ validate_date e = none
         | none => False)
    | _, _ => True

/-! ### Sample data for the concrete witnesses -/

/-- A module used by the concrete witnesses. -/
def mathModule : Module :=
  { id := 1, name := "Analysis", target_hours := 10, exam_date := none,
    created_at := 0 }

/-- A module with target_hours zero, used by the concrete witnesses. -/
def zeroTargetModule : Module :=
  { id := 2, name := "Praktikum", target_hours := 0, exam_date := none,
    created_at := 0 }

/-- A store holding exactly one module and no sessions. -/
def oneModuleStore : Store :=
  { modules := [mathModule], sessions := [], recommendations := [],
    nextModuleId := 2, nextSessionId := 1, nextRecId := 1, clock := 1 }

/-- A store with two modules and two sessions: 2.5 hours for the first
module and 3 hours for the zero-target one. -/
def witnessStore : Store :=
  { modules := [mathModule, zeroTargetModule],
    sessions :=
      [{ id := 1, module_id := 1, duration := 5/2,
         date := { year := 2026, month := 10, day := 15 }, notes := "",
         created_at := 1 },
       { id := 2, module_id := 2, duration := 3,
         date := { year := 2026, month := 10, day := 14 }, notes := "",
         created_at := 2 }],
    recommendations := [], nextModuleId := 3, nextSessionId := 3,
    nextRecId := 1, clock := 3 }

/-! ### Helper lemmas -/

theorem roundHalfEven_intCast (k : Int) : roundHalfEven (k : ℚ) = k := by
  unfold roundHalfEven ratFloor
  norm_num

theorem pyRound_eq_self (n : Nat) (x : ℚ) (k : Int)
    (h : x * (10 : ℚ) ^ n = (k : ℚ)) : pyRound n x = x := by
  unfold pyRound
  rw [h, roundHalfEven_intCast, ← h, mul_div_assoc, div_self (by positivity),
    mul_one]

theorem promptLines_foldl (s : Store) (l : List Module) (acc : List PromptLine) :
    l.foldl (fun a m =>
      a ++ [{ name := m.name, target_hours := m.target_hours,
              actual_hours := Module.get_actual_hours s m,
              remaining_hours :=
                max 0 (m.target_hours - Module.get_actual_hours s m) }]) acc
      = acc ++ l.map (fun m =>
          { name := m.name, target_hours := m.target_hours,
            actual_hours := Module.get_actual_hours s m,
            remaining_hours :=
              max 0 (m.target_hours - Module.get_actual_hours s m) }) := by
  induction l generalizing acc with
  | nil => simp
  | cons x xs ih => simp [ih]

theorem foldl_maxByCreatedAt_some (l : List AIRecommendation)
    (a : AIRecommendation) :
    ∃ r, l.foldl maxByCreatedAt (some a) = some r ∧ (r = a ∨ r ∈ l) ∧
      a.created_at ≤ r.created_at ∧ ∀ q ∈ l, q.created_at ≤ r.created_at := by
  induction l generalizing a with
  | nil => exact ⟨a, rfl, Or.inl rfl, le_refl _, by simp⟩
  | cons x xs ih =>
    by_cases h : a.created_at < x.created_at
    · obtain ⟨r, h1, h2, h3, h4⟩ := ih x
      refine ⟨r, ?_, ?_, ?_, ?_⟩
      · simpa [maxByCreatedAt, h] using h1
      · rcases h2 with h2 | h2
        · exact Or.inr (by simp [h2])
        · exact Or.inr (by simp [h2])
      · exact le_of_lt (lt_of_lt_of_le h h3)
      · intro q hq
        rcases List.mem_cons.mp hq with rfl | hq
        · exact h3
        · exact h4 q hq
    · obtain ⟨r, h1, h2, h3, h4⟩ := ih a
      refine ⟨r, ?_, ?_, ?_, ?_⟩
      · simpa [maxByCreatedAt, h] using h1
      · rcases h2 with h2 | h2
        · exact Or.inl h2
        · exact Or.inr (List.mem_cons_of_mem _ h2)
      · exact h3
      · intro q hq
        rcases List.mem_cons.mp hq with rfl | hq
        · exact le_trans (le_of_not_lt h) h3
        · exact h4 q hq

theorem lastRecommendation_spec (s : Store) :
    (lastRecommendation s = none ↔ s.recommendations = []) ∧
    ∀ r, lastRecommendation s = some r →
      r ∈ s.recommendations ∧
      ∀ q ∈ s.recommendations, q.created_at ≤ r.created_at := by
  cases hrec : s.recommendations with
  | nil =>
    constructor
    · simp [lastRecommendation, hrec]
    · intro r hr
      rw [lastRecommendation, hrec] at hr
      simp at hr
  | cons x xs =>
    obtain ⟨r, h1, h2, h3, h4⟩ := foldl_maxByCreatedAt_some xs x
    have hlast : lastRecommendation s = some r := by
      rw [lastRecommendation, hrec]
      simpa [maxByCreatedAt] using h1
    constructor
    · simp [hlast, hrec]
    · intro r2 hr2
      rw [hlast] at hr2
      injection hr2 with hr2
      subst hr2
      constructor
      · rcases h2 with rfl | h2
        · exact List.mem_cons_self _ _
        · exact List.mem_cons_of_mem _ h2
      · intro q hq
        rcases List.mem_cons.mp hq with rfl | hq
        · exact h3
        · exact h4 q hq

/-! ### Claim theorems -/

/-- Claim C1: deleting a Module whose id does not exist is specified to
answer 404, but the handler catches the NotFound raised by get_or_404 in
its own blanket except Exception and answers 500 instead.  Evaluated at
the failing input, DELETE /api/modules/1 on the empty database. -/
theorem delete_module_missing_id_returns_500 :
    (delete_module emptyStore 1).status = 500 ∧
    (delete_module emptyStore 1).status ≠ 404 := by
  decide

/-- Claim C3: the serialized progress_percentage of a Module equals
actual_hours / target_hours * 100 rounded to 1 decimal, where
actual_hours is the sum of the durations of the sessions of the module
rounded to 2 decimals, and it is 0 whenever target_hours is 0, regardless
of actual_hours. -/
theorem progress_percentage_spec (s : Store) (m : Module) :
    (Module.to_dict s m).actual_hours =
      pyRound 2 (((s.sessions.filter (fun x => x.module_id == m.id)).map
        (fun x => x.duration)).sum) ∧
    (m.target_hours = 0 → (Module.to_dict s m).progress_percentage = 0) ∧
    (m.target_hours ≠ 0 → (Module.to_dict s m).progress_percentage =
      pyRound 1 ((Module.to_dict s m).actual_hours / m.target_hours * 100)) := by
  refine ⟨rfl, ?_, ?_⟩ <;> intro h <;>
    simp [Module.to_dict, Module.get_progress_percentage,
      Module.get_actual_hours, h]

/-- Witness for claim C3: the zero-target module (which has 3 studied
hours) gets progress 0, and the 10-hour module (2.5 studied hours) gets
the rounded percentage; its value evaluates to 25.0. -/
theorem progress_percentage_spec_witness :
    (Module.to_dict witnessStore zeroTargetModule).progress_percentage = 0 ∧
    (Module.to_dict witnessStore zeroTargetModule).actual_hours = 3 ∧
    (Module.to_dict witnessStore mathModule).progress_percentage = 25 := by
  have h0 := progress_percentage_spec witnessStore zeroTargetModule
  have h1 := progress_percentage_spec witnessStore mathModule
  have ha0 : (Module.to_dict witnessStore zeroTargetModule).actual_hours = 3 := by
    rw [h0.1]
    have hs : ((witnessStore.sessions.filter
        (fun x => x.module_id == zeroTargetModule.id)).map
          (fun x => x.duration)).sum = 3 := by
      simp [witnessStore, zeroTargetModule]
    rw [hs]
    exact pyRound_eq_self 2 3 300 (by norm_num)
  have ha1 : (Module.to_dict witnessStore mathModule).actual_hours = 5/2 := by
    rw [h1.1]
    have hs : ((witnessStore.sessions.filter
        (fun x => x.module_id == mathModule.id)).map
          (fun x => x.duration)).sum = 5/2 := by
      simp [witnessStore, mathModule]
    rw [hs]
    exact pyRound_eq_self 2 (5/2) 250 (by norm_num)
  refine ⟨h0.2.1 rfl, ha0, ?_⟩
  rw [h1.2.2 (by norm_num [mathModule]), ha1]
  have hq : (5/2 : ℚ) / mathModule.target_hours * 100 = 25 := by
    norm_num [mathModule]
  rw [hq]
  exact (pyRound_eq_self 1 25 250 (by norm_num)).trans rfl

/-- Claim C7: POST /api/recommend with an empty or placeholder Gemini key
answers 503, makes no external call, and leaves the store unchanged. -/
theorem recommend_unconfigured_503 (cfg : Config) (s : Store)
    (api : Option String)
    (h : cfg.gemini_api_key = "" ∨ cfg.gemini_api_key = "your-api-key-here") :
    create_recommendation cfg s api =
      { status := 503, store := s, external_called := false } := by
  simp only [create_recommendation]
  rw [if_pos h]

/-- Witness for claim C7 at both failing configurations. -/
theorem recommend_unconfigured_503_witness :
    create_recommendation { gemini_api_key := "" } emptyStore none =
      { status := 503, store := emptyStore, external_called := false } ∧
    create_recommendation { gemini_api_key := "your-api-key-here" }
        witnessStore (some "plan") =
      { status := 503, store := witnessStore, external_called := false } :=
  ⟨recommend_unconfigured_503 _ _ _ (Or.inl rfl),
   recommend_unconfigured_503 _ _ _ (Or.inr rfl)⟩

/-- Claim C8: with the key configured but no Module in the store, POST
/api/recommend answers 400 and writes no Recommendation row; and the
prompt lists, for every Module in order, its name, target hours, actual
hours and remaining hours, with remaining = max(0, target - actual). -/
theorem recommend_no_modules_400 (cfg : Config) (s : Store)
    (api : Option String) :
    (cfg.gemini_api_key ≠ "" → cfg.gemini_api_key ≠ "your-api-key-here" →
      s.modules = [] →
      create_recommendation cfg s api =
        { status := 400, store := s, external_called := false }) ∧
    promptLines s = s.modules.map (fun m =>
      { name := m.name, target_hours := m.target_hours,
        actual_hours := Module.get_actual_hours s m,
        remaining_hours := max 0 (m.target_hours - Module.get_actual_hours s m) }) := by
  constructor
  · intro h1 h2 h3
    have hk : ¬(cfg.gemini_api_key = "" ∨
        cfg.gemini_api_key = "your-api-key-here") := by
      rintro (h | h)
      · exact h1 h
      · exact h2 h
    simp [create_recommendation, hk, h3]
  · have h := promptLines_foldl s s.modules []
    rw [List.nil_append] at h
    exact h

/-- Witness for claim C8: an actual key with an empty module table gets
the 400 and writes nothing. -/
theorem recommend_no_modules_400_witness :
    create_recommendation { gemini_api_key := "k" } emptyStore none =
      { status := 400, store := emptyStore, external_called := false } :=
  (recommend_no_modules_400 { gemini_api_key := "k" } emptyStore none).1
    (by decide) (by decide) rfl

/-- Claim C4: POST /api/sessions answers 400 when module_id, duration or
date is missing, 400 when the duration is not positive, 404 when the
module does not exist, and 400 when the date does not parse in the fixed
YYYY-MM-DD format (the checks run in source order), and every rejection
leaves the store unchanged, persisting no Session row. -/
theorem create_session_rejection_spec (s : Store) (b : SessionBody) :
    ((b.module_id = none ∨ b.duration = none ∨ b.date = none) →
      create_session s (some b) = { status := 400, body := none, store := s }) ∧
    (∀ mid dur ds, b.module_id = some mid → b.duration = some dur →
        b.date = some ds →
      ((dur ≤ 0 → create_session s (some b) =
          { status := 400, body := none, store := s }) ∧
       (0 < dur → findModule s mid = none → create_session s (some b) =
          { status := 404, body := none, store := s }) ∧
       (0 < dur → (findModule s mid).isSome = true → validate_date ds = none →
          create_session s (some b) =
            { status := 400, body := none, store := s }))) := by
  obtain ⟨mi, du, da, no⟩ := b
  constructor
  · intro h
    rcases mi with _ | mi <;> rcases du with _ | du <;> rcases da with _ | da <;>
      first
        | rfl
        | (exfalso
           rcases h with h | h | h <;> exact Option.noConfusion h)
  · intro mid dur ds h1 h2 h3
    simp only at h1 h2 h3
    subst h1
    subst h2
    subst h3
    refine ⟨?_, ?_, ?_⟩
    · intro hd
      simp only [create_session]
      rw [if_pos hd]
    · intro hpos hfind
      simp only [create_session]
      rw [if_neg (not_le.mpr hpos), hfind]
    · intro hpos hsome hval
      obtain ⟨m, hm⟩ := Option.isSome_iff_exists.mp hsome
      simp only [create_session]
      rw [if_neg (not_le.mpr hpos), hm, hval]

/-- Witness for claim C4: all four rejection cases at concrete inputs
(missing module_id; duration -1; missing module 1 in the empty store; and
an unparseable date with an existing module). -/
theorem create_session_rejection_spec_witness :
    create_session emptyStore
      (some { module_id := none, duration := some 1,
              date := some "2026-01-01", notes := none }) =
      { status := 400, body := none, store := emptyStore } ∧
    create_session emptyStore
      (some { module_id := some 1, duration := some (-1),
              date := some "2026-01-01", notes := none }) =
      { status := 400, body := none, store := emptyStore } ∧
    create_session emptyStore
      (some { module_id := some 1, duration := some 1,
              date := some "2026-01-01", notes := none }) =
      { status := 404, body := none, store := emptyStore } ∧
    create_session oneModuleStore
      (some { module_id := some 1, duration := some 1,
              date := some "nope", notes := none }) =
      { status := 400, body := none, store := oneModuleStore } :=
  ⟨(create_session_rejection_spec emptyStore _).1 (Or.inl rfl),
   ((create_session_rejection_spec emptyStore _).2 1 (-1) "2026-01-01"
      rfl rfl rfl).1 (by norm_num),
   (((create_session_rejection_spec emptyStore _).2 1 1 "2026-01-01"
      rfl rfl rfl).2.1 (by norm_num) rfl),
   (((create_session_rejection_spec oneModuleStore _).2 1 1 "nope"
      rfl rfl rfl).2.2 (by norm_num) rfl rfl)⟩

/-- Counterexample to claim C5 as stated: an exam_date that is present in
the request as the empty string does not parse as a calendar date, yet
the request is accepted with 201, because the handler only validates
truthy exam_date values. -/
theorem create_module_blank_exam_date_accepted :
    (create_module emptyStore
      (some { name := some "Analysis", target_hours := some 10,
              exam_date := some "" })).status = 201 ∧
    validate_date "" = none := by
  constructor
  · simp only [create_module]
    rw [if_neg (by norm_num)]
    rfl
  · rfl

theorem createModuleCommit_parts (s : Store) (name2 : String) (target : ℚ)
    (ed : Option Date) (data : Option ModuleBody)
    (hc : create_module s data = createModuleCommit s name2 target ed) :
    (create_module s data).status = 201 ∧
    ∃ m : Module, (create_module s data).store.modules = s.modules ++ [m] ∧
      (create_module s data).store.sessions = s.sessions ∧
      m.id = s.nextModuleId ∧ m.name = name2 ∧ m.target_hours = target ∧
      (create_module s data).body =
        some (Module.to_dict (create_module s data).store m) ∧
      m.exam_date = ed := by
  rw [hc]
  exact ⟨rfl,
    { id := s.nextModuleId, name := name2, target_hours := target,
      exam_date := ed, created_at := s.clock },
    rfl, rfl, rfl, rfl, rfl, rfl, rfl⟩

/-- Claim C5 as amended: module creation answers 400 exactly when the
body is absent, name or target_hours is missing, target_hours is
negative, or exam_date is present with a non-empty value that does not
parse in the fixed YYYY-MM-DD format; every 400 leaves the store
unchanged, and otherwise the new Module is persisted and answered
serialized with status 201. -/
theorem create_module_validation_spec (s : Store) (data : Option ModuleBody) :
    ((create_module s data).status = 400 ↔ moduleCreateRejected data) ∧
    ((create_module s data).status = 400 → (create_module s data).store = s) ∧
    (¬ moduleCreateRejected data →
      ∃ d name target, data = some d ∧ d.name = some name ∧
        d.target_hours = some target ∧
        (create_module s data).status = 201 ∧
        ∃ m : Module,
          (create_module s data).store.modules = s.modules ++ [m] ∧
          (create_module s data).store.sessions = s.sessions ∧
          m.id = s.nextModuleId ∧ m.name = name ∧ m.target_hours = target ∧
          (create_module s data).body =
            some (Module.to_dict (create_module s data).store m) ∧
          ((d.exam_date = none ∨ d.exam_date = some "") → m.exam_date = none) ∧
          (∀ e, d.exam_date = some e → e ≠ "" →
            m.exam_date = validate_date e)) := by
  rcases data with _ | ⟨n, t, e⟩
  · exact ⟨by simp [create_module, moduleCreateRejected], fun _ => rfl,
      fun h => absurd trivial h⟩
  · rcases n with _ | name
    · exact ⟨by simp [create_module, moduleCreateRejected], fun _ => rfl,
        fun h => absurd trivial h⟩
    · rcases t with _ | target
      · exact ⟨by simp [create_module, moduleCreateRejected], fun _ => rfl,
          fun h => absurd trivial h⟩
      · by_cases ht : target < 0
        · refine ⟨?_, ?_, fun h => absurd (Or.inl ht) h⟩
          · simp [create_module, moduleCreateRejected, ht]
          · intro _
            simp [create_module, ht]
        · rcases e with _ | ex
          · have hc : create_module s
                (some { name := some name, target_hours := some target,
                        exam_date := none }) =
                createModuleCommit s name target none := by
              simp [create_module, ht]
            obtain ⟨hstat, m, hmods, hsess, hid, hname2, htarget, hbody, hexam⟩ :=
              createModuleCommit_parts s name target none _ hc
            refine ⟨?_, ?_, fun h => ?_⟩
            · constructor
              · intro h400
                rw [hstat] at h400
                exact absurd h400 (by norm_num)
              · rintro (hr | hr)
                · exact absurd hr ht
                · exact hr.elim
            · intro h400
              rw [hstat] at h400
              exact absurd h400 (by norm_num)
            · refine ⟨_, name, target, rfl, rfl, rfl, hstat, m, hmods, hsess,
                hid, hname2, htarget, hbody, fun _ => hexam, ?_⟩
              intro e2 he2 _
              exact Option.noConfusion he2
          · by_cases he : ex = ""
            · subst he
              have hc : create_module s
                  (some { name := some name, target_hours := some target,
                          exam_date := some "" }) =
                  createModuleCommit s name target none := by
                simp [create_module, ht]
              obtain ⟨hstat, m, hmods, hsess, hid, hname2, htarget, hbody, hexam⟩ :=
                createModuleCommit_parts s name target none _ hc
              refine ⟨?_, ?_, fun h => ?_⟩
              · constructor
                · intro h400
                  rw [hstat] at h400
                  exact absurd h400 (by norm_num)
                · rintro (hr | hr)
                  · exact absurd hr ht
                  · have hr2 : ("" : String) ≠ "" ∧ validate_date "" = none := hr
                    exact absurd rfl hr2.1
              · intro h400
                rw [hstat] at h400
                exact absurd h400 (by norm_num)
              · refine ⟨_, name, target, rfl, rfl, rfl, hstat, m, hmods, hsess,
                  hid, hname2, htarget, hbody, fun _ => hexam, ?_⟩
                intro e2 he2 hne
                injection he2 with he2
                exact absurd he2.symm hne
            · cases hv : validate_date ex with
              | none =>
                refine ⟨?_, ?_, fun h => absurd (Or.inr ⟨he, hv⟩) h⟩
                · simp [create_module, moduleCreateRejected, ht, he, hv]
                · intro _
                  simp [create_module, ht, he, hv]
              | some ed =>
                have hc : create_module s
                    (some { name := some name, target_hours := some target,
                            exam_date := some ex }) =
                    createModuleCommit s name target (some ed) := by
                  simp [create_module, ht, he, hv]
                obtain ⟨hstat, m, hmods, hsess, hid, hname2, htarget, hbody,
                  hexam⟩ := createModuleCommit_parts s name target (some ed) _ hc
                refine ⟨?_, ?_, fun h => ?_⟩
                · constructor
                  · intro h400
                    rw [hstat] at h400
                    exact absurd h400 (by norm_num)
                  · rintro (hr | hr)
                    · exact absurd hr ht
                    · have hr2 : ex ≠ "" ∧ validate_date ex = none := hr
                      rw [hv] at hr2
                      exact Option.noConfusion hr2.2
                · intro h400
                  rw [hstat] at h400
                  exact absurd h400 (by norm_num)
                · refine ⟨_, name, target, rfl, rfl, rfl, hstat, m, hmods,
                    hsess, hid, hname2, htarget, hbody, ?_, ?_⟩
                  · rintro (hr | hr)
                    · exact Option.noConfusion hr
                    · injection hr with hr
                      exact absurd hr he
                  · intro e2 he2 _
                    injection he2 with he2
                    subst he2
                    rw [hv]
                    exact hexam

/-- Witness for claim C5 (amended): a well-formed request is not rejected
and yields 201 with the module persisted. -/
theorem create_module_validation_spec_witness :
    (create_module emptyStore
      (some { name := some "Analysis", target_hours := some 10,
              exam_date := none })).status = 201 ∧
    (create_module emptyStore
      (some { name := some "Analysis", target_hours := some 10,
              exam_date := none })).store.modules.length = 1 := by
  obtain ⟨d, nm, tg, -, -, -, hstat, m, hmod, -⟩ :=
    (create_module_validation_spec emptyStore
      (some { name := some "Analysis", target_hours := some 10,
              exam_date := none })).2.2
      (by norm_num [moduleCreateRejected])
  refine ⟨hstat, ?_⟩
  rw [hmod]
  simp [emptyStore]
/-- Claim C9: GET /api/sessions with limit=0 behaves exactly as if no
limit were given, because the handler tests the truthiness of the parsed
limit rather than its presence. -/
theorem get_sessions_zero_limit_returns_all (s : Store) :
    get_sessions s (some 0) = get_sessions s none := rfl

/-- Claim C10: with an absent or null JSON body, POST /api/sessions
answers 500 (the membership test on the missing body raises, and the
blanket except turns that into a 500) while POST /api/modules answers 400
(it tests not data first); neither changes the store. -/
theorem missing_body_asymmetry (s : Store) :
    (create_session s none).status = 500 ∧ (create_session s none).store = s ∧
    (create_module s none).status = 400 ∧ (create_module s none).store = s :=
  ⟨rfl, rfl, rfl, rfl⟩

theorem dateDescLe_trans (a b c : LearningSession) (hab : dateDescLe a b = true)
    (hbc : dateDescLe b c = true) : dateDescLe a c = true := by
  simp only [dateDescLe, decide_eq_true_eq] at hab hbc ⊢
  exact le_trans hbc hab

theorem dateDescLe_total (a b : LearningSession) :
    (dateDescLe a b || dateDescLe b a) = true := by
  simp only [dateDescLe, Bool.or_eq_true, decide_eq_true_eq]
  exact le_total b.date.toOrdinal a.date.toOrdinal

/-- Claim C6: GET /api/sessions without a limit answers 200 with all
sessions, ordered by date descending; with a positive limit N it answers
200 with the first N entries of that same ordering, hence at most N
items. -/
theorem get_sessions_list_spec (s : Store) :
    ((get_sessions s none).1 = 200 ∧
     ((get_sessions s none).2).Perm (s.sessions.map (LearningSession.to_dict s)) ∧
     ((get_sessions s none).2).Pairwise
       (fun a b => b.date.toOrdinal ≤ a.date.toOrdinal)) ∧
    (∀ n : Int, 0 < n →
      (get_sessions s (some n)).1 = 200 ∧
      (get_sessions s (some n)).2 = ((get_sessions s none).2).take n.toNat ∧
      ((get_sessions s (some n)).2).length ≤ n.toNat) := by
  have hsorted := @List.sorted_mergeSort LearningSession dateDescLe
    dateDescLe_trans dateDescLe_total s.sessions
  refine ⟨⟨rfl, ?_, ?_⟩, ?_⟩
  · exact (List.mergeSort_perm s.sessions dateDescLe).map _
  · exact List.pairwise_map.mpr (hsorted.imp (fun hab => of_decide_eq_true hab))
  · intro n hn
    refine ⟨rfl, ?_, ?_⟩
    · simp [get_sessions, hn, List.map_take]
    · have h2 : (get_sessions s (some n)).2 =
          ((s.sessions.mergeSort dateDescLe).take n.toNat).map
            (LearningSession.to_dict s) := by
        simp [get_sessions, hn]
      rw [h2]
      simp [List.length_take]

/-- Witness for claim C6: limit 2 on the two-session store. -/
theorem get_sessions_list_spec_witness :
    (get_sessions witnessStore (some 2)).1 = 200 ∧
    (get_sessions witnessStore (some 2)).2 =
      ((get_sessions witnessStore none).2).take 2 ∧
    ((get_sessions witnessStore (some 2)).2).length ≤ 2 := by
  have h := (get_sessions_list_spec witnessStore).2 2 (by norm_num)
  exact ⟨h.1, h.2.1, h.2.2⟩

theorem filter_point_range (s : Store) (o : Int) :
    get_sessions_by_date_range s o o =
      s.sessions.filter (fun x => decide (x.date.toOrdinal = o)) := by
  unfold get_sessions_by_date_range
  apply List.filter_congr
  intro x _
  rw [decide_eq_decide]
  omega

/-- Claim C2: the dashboard statistics as of the current date: the hours
fields are the 2-decimal-rounded sums of the durations of the sessions
whose date lies in the inclusive windows [today, today], [Monday of the
current week, today] and [first day of the current month, today]; the
session counts range over the first two windows; total_modules is the
module count; and last_recommendation is the most recently created
recommendation, none when the table is empty.  The week bound really is
the Monday of the week of today (a Monday ordinal, at most today, less
than 7 days before it), and the month bound is the ordinal of day 1 of
the month of today. -/
theorem dashboard_matches_spec (s : Store) (today : Date) :
    ((get_dashboard s today).statistics.hours_today =
      pyRound 2 (((s.sessions.filter
        (fun x => decide (x.date.toOrdinal = today.toOrdinal))).map
          (fun x => x.duration)).sum)) ∧
    ((get_dashboard s today).statistics.hours_week =
      pyRound 2 (((s.sessions.filter
        (fun x => decide (mondayOrd today ≤ x.date.toOrdinal ∧
          x.date.toOrdinal ≤ today.toOrdinal))).map
          (fun x => x.duration)).sum)) ∧
    ((mondayOrd today - 1) % 7 = 0 ∧ mondayOrd today ≤ today.toOrdinal ∧
      today.toOrdinal - mondayOrd today < 7) ∧
    ((get_dashboard s today).statistics.hours_month =
      pyRound 2 (((s.sessions.filter
        (fun x => decide ((firstOfMonth today).toOrdinal ≤ x.date.toOrdinal ∧
          x.date.toOrdinal ≤ today.toOrdinal))).map
          (fun x => x.duration)).sum)) ∧
    ((firstOfMonth today).toOrdinal = today.toOrdinal - ((today.day : Int) - 1)) ∧
    ((get_dashboard s today).statistics.sessions_today =
      (s.sessions.filter
        (fun x => decide (x.date.toOrdinal = today.toOrdinal))).length) ∧
    ((get_dashboard s today).statistics.sessions_week =
      (s.sessions.filter
        (fun x => decide (mondayOrd today ≤ x.date.toOrdinal ∧
          x.date.toOrdinal ≤ today.toOrdinal))).length) ∧
    ((get_dashboard s today).statistics.total_modules = s.modules.length) ∧
    ((get_dashboard s today).last_recommendation = none ↔
      s.recommendations = []) ∧
    (∀ rd, (get_dashboard s today).last_recommendation = some rd →
      ∃ r, r ∈ s.recommendations ∧ rd = AIRecommendation.to_dict r ∧
        ∀ q ∈ s.recommendations, q.created_at ≤ r.created_at) := by
  have hl := lastRecommendation_spec s
  have hmap : (get_dashboard s today).last_recommendation =
      (lastRecommendation s).map AIRecommendation.to_dict := rfl
  refine ⟨?_, rfl, ?_, rfl, ?_, ?_, rfl, rfl, ?_, ?_⟩
  · have h : (get_dashboard s today).statistics.hours_today =
        calculate_total_hours
          (get_sessions_by_date_range s today.toOrdinal today.toOrdinal) := rfl
    rw [h, filter_point_range]
    rfl
  · simp only [mondayOrd, Date.weekday]
    omega
  · simp only [firstOfMonth, Date.toOrdinal]
    omega
  · have h : (get_dashboard s today).statistics.sessions_today =
        (get_sessions_by_date_range s today.toOrdinal today.toOrdinal).length :=
      rfl
    rw [h, filter_point_range]
  · rw [hmap, Option.map_eq_none']
    exact hl.1
  · intro rd hrd
    rw [hmap] at hrd
    obtain ⟨r, hr, hrd2⟩ := Option.map_eq_some'.mp hrd
    obtain ⟨hmem, hmax⟩ := hl.2 r hr
    exact ⟨r, hmem, hrd2.symm, hmax⟩

/-- The current date used by the dashboard witness: Thursday 2026-10-15. -/
def dashToday : Date :=
  { year := 2026, month := 10, day := 15 }

/-- Witness for claim C2 on the two-session store as of Thursday
2026-10-15: 2.5 hours today, 5.5 hours in the current week (both
sessions fall on or after Monday 2026-10-12), and 2 sessions this
week. -/
theorem dashboard_matches_spec_witness :
    (get_dashboard witnessStore dashToday).statistics.hours_today = 5/2 ∧
    (get_dashboard witnessStore dashToday).statistics.hours_week = 11/2 ∧
    (get_dashboard witnessStore dashToday).statistics.sessions_week = 2 := by
  have h := dashboard_matches_spec witnessStore dashToday
  have hf1 : witnessStore.sessions.filter
      (fun x => decide (x.date.toOrdinal = dashToday.toOrdinal)) =
      [{ id := 1, module_id := 1, duration := 5/2,
         date := { year := 2026, month := 10, day := 15 }, notes := "",
         created_at := 1 }] := rfl
  have hf2 : witnessStore.sessions.filter
      (fun x => decide (mondayOrd dashToday ≤ x.date.toOrdinal ∧
        x.date.toOrdinal ≤ dashToday.toOrdinal)) = witnessStore.sessions := rfl
  refine ⟨?_, ?_, ?_⟩
  · rw [h.1, hf1]
    simp only [List.map_cons, List.map_nil, List.sum_cons, List.sum_nil,
      add_zero]
    exact pyRound_eq_self 2 (5/2) 250 (by norm_num)
  · rw [h.2.1, hf2]
    have hs : ((witnessStore.sessions).map (fun x => x.duration)).sum = 11/2 := by
      norm_num [witnessStore]
    rw [hs]
    exact pyRound_eq_self 2 (11/2) 550 (by norm_num)
  · rw [h.2.2.2.2.2.2.1, hf2]
    rfl

end StudiumTracker
